import Mathlib

/-!
Verification development for the mcp-lnc-server repository (Go).

The definitions below are a shallow embedding of the repository's
connection-establishment code (tools package: ConnectionService.HandleConnect,
ConnectionService.connectToLNC, ConnectionService.HandleDisconnect) and of the
read-only query-service handlers (NodeService, InvoiceService, PaymentService,
ChannelService, PeerService, OnChainService).

External effects (key generation, the mailbox relay library, the LND RPC
surface, context cancellation, callback timing) are modelled as an explicit
environment record; timing is modelled in integer milliseconds.  RPC response
payloads are modelled as opaque strings, because no verified property inspects
the JSON re-shaping of responses; request construction, argument parsing,
validation ordering and every error path are embedded faithfully from the
source.
-/

/-- A JSON argument value as it arrives in an MCP tool call's argument map
(Go `map[string]any` after JSON decoding).  Numbers are modelled as integers
(the handlers only ever use integral values of the decoded float64s). -/
inductive GoVal
  | str (s : String)
  | num (n : Int)
  | bool (b : Bool)
  | null
deriving DecidableEq, Repr

/-- The argument map of a tool call (`request.Params.Arguments`). -/
abbrev Args := List (String × GoVal)

/-- Look up a key in the argument map. -/
def argLookup (args : Args) (k : String) : Option GoVal :=
  (args.find? (fun p => p.1 = k)).map (fun p => p.2)

/-- Go `v, ok := args[k].(string)`: present and a string, otherwise failure. -/
def getStringArg (args : Args) (k : String) : Option String :=
  match argLookup args k with
  | some (GoVal.str s) => some s
  | _ => none

/-- Go `v, _ := args[k].(string)`: the string, or the zero value "". -/
def getStringArgD (args : Args) (k : String) : String :=
  match argLookup args k with
  | some (GoVal.str s) => s
  | _ => ""

/-- Go `v, _ := args[k].(float64)`: the number, or the zero value 0. -/
def getFloatArg (args : Args) (k : String) : Int :=
  match argLookup args k with
  | some (GoVal.num n) => n
  | _ => 0

/-- Go `v, _ := args[k].(bool)`: the boolean, or the zero value false. -/
def getBoolArg (args : Args) (k : String) : Bool :=
  match argLookup args k with
  | some (GoVal.bool b) => b
  | _ => false

/-- Go `v, ok := args[k].(bool)`: present and a boolean, otherwise failure. -/
def getBoolArgOpt (args : Args) (k : String) : Option Bool :=
  match argLookup args k with
  | some (GoVal.bool b) => some b
  | _ => none

/-- Characters treated as white space by Go's `unicode.IsSpace` in the ASCII
range (the pairing phrases of interest are ASCII). -/
def isGoSpace (c : Char) : Bool :=
  c = ' ' || c = '\t' || c = '\n' || c = Char.ofNat 11 || c = Char.ofNat 12 || c = '\r'

/-- Go `strings.TrimSpace`: drop white space from both ends. -/
def goTrimSpace (s : String) : String :=
  String.mk (((s.data.dropWhile isGoSpace).reverse.dropWhile isGoSpace).reverse)

/-- Helper for `goSplitSpace`: split a character list at every single space
character, keeping empty segments, exactly like Go's `strings.Split(s, " ")`. -/
def splitSpaceAux : List Char → List Char → List String
  | [], acc => [String.mk acc.reverse]
  | c :: cs, acc =>
      if c = ' ' then String.mk acc.reverse :: splitSpaceAux cs []
      else splitSpaceAux cs (c :: acc)

/-- Go `strings.Split(s, " ")`: split at each space, empty tokens included. -/
def goSplitSpace (s : String) : List String :=
  splitSpaceAux s.data []

/-- The word list the connection service computes for a pairing phrase:
`strings.Split(strings.TrimSpace(pairingPhrase), " ")` (HandleConnect). -/
def pairingWords (p : String) : List String :=
  goSplitSpace (goTrimSpace p)

/-- Helper for `goFields`: split at white-space runs, dropping empty tokens. -/
def fieldsAux : List Char → List Char → List String
  | [], acc => if acc.isEmpty then [] else [String.mk acc.reverse]
  | c :: cs, acc =>
      if isGoSpace c then
        if acc.isEmpty then fieldsAux cs []
        else String.mk acc.reverse :: fieldsAux cs []
      else fieldsAux cs (c :: acc)

/-- Modelled from the spec: the spec (and the repository's own test
`TestPairingPhraseValidation`) describe pairing-phrase tokenisation as
whitespace-normalising token-splitting that ignores empty tokens, i.e. Go's
`strings.Fields`.  This definition follows those words, for comparison with
`pairingWords`, which is translated from the code actually run by
`HandleConnect`. -/
def goFields (s : String) : List String :=
  fieldsAux s.data []

/-- Go `strconv.ParseBool`; on any other string the parse fails. -/
def goParseBool (s : String) : Option Bool :=
  if s = "1" || s = "t" || s = "T" || s = "true" || s = "TRUE" || s = "True" then some true
  else if s = "0" || s = "f" || s = "F" || s = "false" || s = "FALSE" || s = "False" then
    some false
  else none

/-- Boolean string-prefix test (Go `strings.HasPrefix`), on character lists. -/
def charsStartWith : List Char → List Char → Bool
  | _, [] => true
  | [], _ :: _ => false
  | c :: cs, p :: ps => c = p && charsStartWith cs ps

/-- Go `strings.HasPrefix s p`. -/
def startsWithStr (s p : String) : Bool :=
  charsStartWith s.data p.data

/-- The condition under which connectToLNC disables TLS certificate validation
on the process-wide default HTTP transport:
`devMode || insecure || strings.HasPrefix(mailboxServer, "localhost") ||
strings.HasPrefix(mailboxServer, "127.0.0.1")`. -/
def insecureCondition (devMode insecure : Bool) (mailboxServer : String) : Bool :=
  devMode || insecure || startsWithStr mailboxServer "localhost" ||
    startsWithStr mailboxServer "127.0.0.1"

/-- Whether a one-shot asynchronous event that fires at time `evt` (in ms,
`none` = never) has fired by time `T`. -/
def firedAt (evt : Option Nat) (T : Nat) : Bool :=
  match evt with
  | some a => a ≤ T
  | none => false

/-- The poll-loop break condition `authReceived && remotePub != nil` at
absolute time `T`. -/
def bothFired (authAt remoteKeyAt : Option Nat) (T : Nat) : Bool :=
  firedAt authAt T && firedAt remoteKeyAt T

/-- Outcome of the bounded callback poll loop. -/
inductive PollRes
  | cancelled (t : Nat)
  | finished (sleeps : Nat) (early : Bool)
deriving DecidableEq, Repr

/-- The callback poll loop of connectToLNC.  `t` is the elapsed time since the
loop started (`time.Since(waitStart)`), which increases by 200 ms per
`time.Sleep(200 * time.Millisecond)`.  The loop runs while `t < 5000` ms
(`maxWaitTime = 5 * time.Second`); each iteration first checks the context
(`reqCtx.Done()`), then breaks if both callbacks have fired.  Absolute time is
`3000 + t` because the loop starts after the 3-second grace wait.  The fuel
argument only makes the recursion structural: called with fuel 26 the zero-fuel
base case is unreachable, since the loop exits after at most 25 sleeps. -/
def pollLoopAux (cancelAt remoteKeyAt authAt : Option Nat) : Nat → Nat → PollRes
  | 0, t => PollRes.finished (t / 200) false
  | fuel + 1, t =>
      if t < 5000 then
        if firedAt cancelAt (3000 + t) then PollRes.cancelled t
        else if bothFired authAt remoteKeyAt (3000 + t) then PollRes.finished (t / 200) true
        else pollLoopAux cancelAt remoteKeyAt authAt fuel (t + 200)
      else PollRes.finished (t / 200) false

/-- The poll loop, entered at elapsed time 0. -/
def pollLoop (cancelAt remoteKeyAt authAt : Option Nat) : PollRes :=
  pollLoopAux cancelAt remoteKeyAt authAt 26 0


/-- Observable events of one connectToLNC run, in program order. -/
inductive Ev
  | tlsDisable
  | mailboxOpen
  | connectorCall
  | getInfoCall
  | closeConn (conn : Nat)
deriving DecidableEq, Repr

/-- The connections closed during a run, read off the event list. -/
def closedIn (events : List Ev) : List Nat :=
  events.filterMap (fun e =>
    match e with
    | Ev.closeConn c => some c
    | _ => none)

/-- The TLS events emitted before the mailbox session is opened: the global
HTTP-transport TLS mutation happens exactly when `insecureCondition` holds. -/
def tlsEvents (devMode insecure : Bool) (mailboxServer : String) : List Ev :=
  if insecureCondition devMode insecure mailboxServer then [Ev.tlsDisable] else []

/-- The GetInfo response fields the connection handler reads. -/
structure NodeInfo where
  identityPubkey : String
  nodeAlias : String
  numActiveChannels : Nat
  numPeers : Nat
  version : String
deriving DecidableEq, Repr

/-- The distinct failure conditions of connectToLNC; each carries the full
human-readable message built by the corresponding `fmt.Errorf`. -/
inductive ConnErr
  | keygenFailed (msg : String)
  | mailboxFailed (msg : String)
  | cancelled (msg : String)
  | connectorUnavailable (msg : String)
  | connectorFailed (msg : String)
  | getInfoFailed (msg : String)
deriving DecidableEq, Repr

/-- The message of a connection error, as `%v` renders the wrapped error. -/
def ConnErr.message : ConnErr → String
  | ConnErr.keygenFailed m => m
  | ConnErr.mailboxFailed m => m
  | ConnErr.cancelled m => m
  | ConnErr.connectorUnavailable m => m
  | ConnErr.connectorFailed m => m
  | ConnErr.getInfoFailed m => m

/-- The external world of one connection attempt: results of key generation,
of the mailbox session constructor, callback firing times, context
cancellation time, the connector function's result, the liveness GetInfo
result, and the recognised environment variables. -/
structure ConnectEnv where
  keygenOk : Bool
  mailboxErr : Option String
  connectorAvailable : Bool
  cancelAt : Option Nat
  remoteKeyAt : Option Nat
  authAt : Option Nat
  connectorResult : Except String Nat
  getInfoResult : Except String NodeInfo
  ctxErrMsg : String
  envMailbox : String
  envDevMode : String
  envInsecure : String
deriving Repr

/-- Trace of one connectToLNC run: its events and (when the poll loop ran) the
poll outcome. -/
structure ConnectTrace where
  events : List Ev
  poll : Option PollRes
deriving DecidableEq, Repr

/-- Whether the 3-second grace wait (`select` on `time.After(3s)` and
`reqCtx.Done()`) is interrupted by cancellation; the tie at exactly 3000 ms is
resolved in favour of the timer. -/
def graceCancelled (cancelAt : Option Nat) : Bool :=
  match cancelAt with
  | some cv => cv < 3000
  | none => false

/-- ConnectionService.connectToLNC.  Program order from the source: session
key generation; TLS ConfigNote (global transport mutation when
`insecureCondition` holds); `mailbox.NewClientWebsocketConn`; the 3-second
grace wait (cancellable); the `lndConnect == nil` check; the bounded callback
poll loop (cancellable); the blocking connector call; the liveness GetInfo RPC
whose failure closes the fresh connection.  The `statusChecker()` call and all
logging are omitted as pure logging. -/
def connectToLNC (env : ConnectEnv) (pairingPhrase password mailboxServer : String)
    (devMode insecure : Bool) : Except ConnErr (Nat × NodeInfo) × ConnectTrace :=
  if env.keygenOk then
    match env.mailboxErr with
    | some e =>
        (Except.error (ConnErr.mailboxFailed ("failed to create mailbox connection: " ++ e)),
         { events := tlsEvents devMode insecure mailboxServer ++ [Ev.mailboxOpen], poll := none })
    | none =>
        if graceCancelled env.cancelAt then
          (Except.error (ConnErr.cancelled ("connection cancelled: " ++ env.ctxErrMsg)),
           { events := tlsEvents devMode insecure mailboxServer ++ [Ev.mailboxOpen], poll := none })
        else if env.connectorAvailable then
          match pollLoop env.cancelAt env.remoteKeyAt env.authAt with
          | PollRes.cancelled t =>
              (Except.error (ConnErr.cancelled ("connection cancelled: " ++ env.ctxErrMsg)),
               { events := tlsEvents devMode insecure mailboxServer ++ [Ev.mailboxOpen],
                 poll := some (PollRes.cancelled t) })
          | PollRes.finished s e =>
              match env.connectorResult with
              | Except.error m =>
                  (Except.error (ConnErr.connectorFailed
                      ("failed to establish LND connection: " ++ m)),
                   { events := tlsEvents devMode insecure mailboxServer ++
                       [Ev.mailboxOpen, Ev.connectorCall],
                     poll := some (PollRes.finished s e) })
              | Except.ok conn =>
                  match env.getInfoResult with
                  | Except.error m =>
                      (Except.error (ConnErr.getInfoFailed
                          ("connected but failed to get node info: " ++ m)),
                       { events := tlsEvents devMode insecure mailboxServer ++
                           [Ev.mailboxOpen, Ev.connectorCall, Ev.getInfoCall,
                            Ev.closeConn conn],
                         poll := some (PollRes.finished s e) })
                  | Except.ok info =>
                      (Except.ok (conn, info),
                       { events := tlsEvents devMode insecure mailboxServer ++
                           [Ev.mailboxOpen, Ev.connectorCall, Ev.getInfoCall],
                         poll := some (PollRes.finished s e) })
        else
          (Except.error (ConnErr.connectorUnavailable
              "lndConnect function not available after connection setup"),
           { events := tlsEvents devMode insecure mailboxServer ++ [Ev.mailboxOpen],
             poll := none })
  else
    (Except.error (ConnErr.keygenFailed "failed to generate private key"),
     { events := [], poll := none })

/-- Result of an MCP tool call (`mcp.NewToolResultText` / `mcp.NewToolResultError`). -/
inductive ToolResult
  | ok (text : String)
  | error (msg : String)
deriving DecidableEq, Repr

/-- The uniform message every query handler returns when no client is stored. -/
def notConnectedMsg : String :=
  "Not connected to Lightning node. Use lnc_connect first."

/-- The success payload of lnc_connect (whitespace of the Go template elided). -/
def connectSuccessText (info : NodeInfo) (mailboxServer : String) : String :=
  "\x7b \"connected\": true, \"node_pubkey\": \"" ++ info.identityPubkey ++
    "\", \"alias\": \"" ++ info.nodeAlias ++
    "\", \"num_channels\": " ++ toString info.numActiveChannels ++
    ", \"num_peers\": " ++ toString info.numPeers ++
    ", \"version\": \"" ++ info.version ++
    "\", \"mailbox_server\": \"" ++ mailboxServer ++ "\" \x7d"

/-- The success payload of lnc_disconnect. -/
def disconnectText : String :=
  "\x7b \"disconnected\": true, \"message\": \"Disconnected from Lightning node\" \x7d"

/-- GetMailboxServer: the "mailbox" argument when present as a string, else "". -/
def getMailboxServer (args : Args) : String :=
  match argLookup args "mailbox" with
  | some (GoVal.str s) => s
  | _ => ""

/-- Result of ConnectionService.HandleConnect: the tool result, the stored
connection afterwards (`s.Connection`), the connection passed to the
ConnectionCallback (if any), and the connectToLNC trace (`none` when
validation failed before connectToLNC was called, i.e. before any relay
interaction was attempted). -/
structure HandleConnectRes where
  result : ToolResult
  newConn : Option Nat
  callbackConn : Option Nat
  relayTrace : Option ConnectTrace
deriving DecidableEq, Repr

/-- Mailbox-server resolution in HandleConnect: the "mailbox" argument when
non-empty, else the LNC_MAILBOX_SERVER environment variable when non-empty,
else the well-known production default. -/
def resolveMailboxServer (args : Args) (env : ConnectEnv) : String :=
  if getMailboxServer args = "" then
    if env.envMailbox ≠ "" then env.envMailbox
    else "mailbox.terminal.lightning.today:443"
  else getMailboxServer args

/-- Dev-mode resolution in HandleConnect: the "devMode" boolean argument when
present, else LNC_DEV_MODE parsed with strconv.ParseBool (false on a parse
error), else false. -/
def resolveDevMode (args : Args) (env : ConnectEnv) : Bool :=
  match getBoolArgOpt args "devMode" with
  | some dev => dev
  | none =>
      if env.envDevMode ≠ "" then (goParseBool env.envDevMode).getD false
      else false

/-- Insecure-mode resolution in HandleConnect: the "insecure" boolean argument
when present, else LNC_INSECURE parsed with strconv.ParseBool, else false. -/
def resolveInsecure (args : Args) (env : ConnectEnv) : Bool :=
  match getBoolArgOpt args "insecure" with
  | some ins => ins
  | none =>
      if env.envInsecure ≠ "" then (goParseBool env.envInsecure).getD false
      else false

/-- ConnectionService.HandleConnect: argument presence checks, pairing-phrase
word-count validation, parameter resolution (argument, then environment
variable, then default), the connectToLNC call, and connection storage plus
callback notification on success.  The connect timeout is computed and logged
in the source but never used by connectToLNC, so it is omitted here. -/
def HandleConnect (st : Option Nat) (args : Args) (env : ConnectEnv) : HandleConnectRes :=
  match getStringArg args "pairingPhrase" with
  | none =>
      { result := ToolResult.error "pairingPhrase is required",
        newConn := st, callbackConn := none, relayTrace := none }
  | some pairingPhrase =>
      match getStringArg args "password" with
      | none =>
          { result := ToolResult.error "password is required",
            newConn := st, callbackConn := none, relayTrace := none }
      | some password =>
          if (pairingWords pairingPhrase).length ≠ 10 then
            { result := ToolResult.error "pairingPhrase must contain exactly 10 words",
              newConn := st, callbackConn := none, relayTrace := none }
          else
            match connectToLNC env pairingPhrase password (resolveMailboxServer args env)
                (resolveDevMode args env) (resolveInsecure args env) with
            | (Except.error e, tr) =>
                { result := ToolResult.error
                    ("Failed to connect to Lightning node: " ++ e.message),
                  newConn := st, callbackConn := none, relayTrace := some tr }
            | (Except.ok (conn, info), tr) =>
                { result := ToolResult.ok
                    (connectSuccessText info (resolveMailboxServer args env)),
                  newConn := some conn, callbackConn := some conn, relayTrace := some tr }

/-- ConnectionService.HandleDisconnect: if a connection is stored it is closed
(the Close error `closeErr` is only logged, never surfaced) and the reference
cleared; in every case the handler returns the success payload.  The returned
triple is (tool result, stored connection afterwards, connections closed). -/
def HandleDisconnect (st : Option Nat) (closeErr : Option String) :
    ToolResult × Option Nat × List Nat :=
  match st with
  | some conn => (ToolResult.ok disconnectText, none, [conn])
  | none => (ToolResult.ok disconnectText, none, [])

/-- The request of lnrpc.ListPaymentsRequest as built by HandleListPayments. -/
structure ListPaymentsRequest where
  includeIncomplete : Bool
  indexOffset : Int
  maxPayments : Int
  reversed : Bool
deriving DecidableEq, Repr

/-- The request of lnrpc.ListInvoiceRequest as built by HandleListInvoices. -/
structure ListInvoiceRequest where
  pendingOnly : Bool
  indexOffset : Int
  numMaxInvoices : Int
  reversed : Bool
deriving DecidableEq, Repr

/-- The request of lnrpc.ListChannelsRequest as built by HandleListChannels. -/
structure ListChannelsRequest where
  activeOnly : Bool
  inactiveOnly : Bool
  publicOnly : Bool
  privateOnly : Bool
deriving DecidableEq, Repr

/-- The request of lnrpc.ListUnspentRequest as built by HandleListUnspent. -/
structure ListUnspentRequest where
  minConfs : Int
  maxConfs : Int
  account : String
deriving DecidableEq, Repr

/-- The request of lnrpc.GetTransactionsRequest as built by HandleGetTransactions. -/
structure GetTransactionsRequest where
  startHeight : Int
  endHeight : Int
  account : String
deriving DecidableEq, Repr

/-- One RPC issued against the LightningClient, with the request it carries. -/
inductive RpcCall
  | getInfo
  | walletBalance
  | channelBalance
  | decodePayReq (payReq : String)
  | listInvoices (req : ListInvoiceRequest)
  | lookupInvoice (rHashHex : String)
  | listChannels (req : ListChannelsRequest)
  | pendingChannels
  | listPayments (req : ListPaymentsRequest)
  | listUnspent (req : ListUnspentRequest)
  | getTransactions (req : GetTransactionsRequest)
  | estimateFee (targetConf : Int)
  | listPeers
  | describeGraph (includeUnannounced : Bool)
  | getNodeInfo (pubKey : String) (includeChannels : Bool)
deriving DecidableEq, Repr

/-- The remote lnrpc.LightningClient, abstracted as a map from each issued
call to either an RPC error or an opaque response payload.  The JSON
re-shaping of successful responses is not modelled (no claim depends on it);
every guard, argument parse, request construction and error message is. -/
structure LightningClient where
  call : RpcCall → Except String String

/-- A query handler's observable outcome: its tool result and the RPCs it
issued, in order. -/
abbrev QueryOutcome := ToolResult × List RpcCall

/-- NodeService.HandleGetInfo. -/
def HandleGetInfo (client : Option LightningClient) (args : Args) : QueryOutcome :=
  match client with
  | none => (ToolResult.error notConnectedMsg, [])
  | some c =>
      match c.call RpcCall.getInfo with
      | Except.error e => (ToolResult.error ("Failed to get node info: " ++ e), [RpcCall.getInfo])
      | Except.ok data => (ToolResult.ok data, [RpcCall.getInfo])

/-- NodeService.HandleGetBalance: WalletBalance then ChannelBalance. -/
def HandleGetBalance (client : Option LightningClient) (args : Args) : QueryOutcome :=
  match client with
  | none => (ToolResult.error notConnectedMsg, [])
  | some c =>
      match c.call RpcCall.walletBalance with
      | Except.error e =>
          (ToolResult.error ("Failed to get wallet balance: " ++ e), [RpcCall.walletBalance])
      | Except.ok d1 =>
          match c.call RpcCall.channelBalance with
          | Except.error e =>
              (ToolResult.error ("Failed to get channel balance: " ++ e),
               [RpcCall.walletBalance, RpcCall.channelBalance])
          | Except.ok d2 =>
              (ToolResult.ok (d1 ++ d2), [RpcCall.walletBalance, RpcCall.channelBalance])

/-- InvoiceService.HandleDecodeInvoice: nil-client guard, argument presence,
the `len(invoice) < 3 || invoice[:2] != "ln"` format check, then DecodePayReq. -/
def HandleDecodeInvoice (client : Option LightningClient) (args : Args) : QueryOutcome :=
  match client with
  | none => (ToolResult.error notConnectedMsg, [])
  | some c =>
      match getStringArg args "invoice" with
      | none => (ToolResult.error "invoice is required", [])
      | some invoice =>
          if invoice.data.length < 3 || String.mk (invoice.data.take 2) ≠ "ln" then
            (ToolResult.error "invalid BOLT11 invoice format", [])
          else
            match c.call (RpcCall.decodePayReq invoice) with
            | Except.error e =>
                (ToolResult.error ("Failed to decode invoice: " ++ e),
                 [RpcCall.decodePayReq invoice])
            | Except.ok data => (ToolResult.ok data, [RpcCall.decodePayReq invoice])

/-- InvoiceService.HandleListInvoices: a zero or absent num_max_invoices is
replaced by the default 100 before the request is built. -/
def HandleListInvoices (client : Option LightningClient) (args : Args) : QueryOutcome :=
  match client with
  | none => (ToolResult.error notConnectedMsg, [])
  | some c =>
      match c.call (RpcCall.listInvoices
          { pendingOnly := getBoolArg args "pending_only",
            indexOffset := getFloatArg args "index_offset",
            numMaxInvoices :=
              if getFloatArg args "num_max_invoices" = 0 then 100
              else getFloatArg args "num_max_invoices",
            reversed := getBoolArg args "reversed" }) with
      | Except.error e =>
          (ToolResult.error ("Failed to list invoices: " ++ e),
           [RpcCall.listInvoices
              { pendingOnly := getBoolArg args "pending_only",
                indexOffset := getFloatArg args "index_offset",
                numMaxInvoices :=
                  if getFloatArg args "num_max_invoices" = 0 then 100
                  else getFloatArg args "num_max_invoices",
                reversed := getBoolArg args "reversed" }])
      | Except.ok data =>
          (ToolResult.ok data,
           [RpcCall.listInvoices
              { pendingOnly := getBoolArg args "pending_only",
                indexOffset := getFloatArg args "index_offset",
                numMaxInvoices :=
                  if getFloatArg args "num_max_invoices" = 0 then 100
                  else getFloatArg args "num_max_invoices",
                reversed := getBoolArg args "reversed" }])

/-- Hexadecimal digit test for Go `hex.DecodeString` validity. -/
def isHexDigitChar (c : Char) : Bool :=
  ('0' ≤ c && c ≤ '9') || ('a' ≤ c && c ≤ 'f') || ('A' ≤ c && c ≤ 'F')

/-- InvoiceService.HandleLookupInvoice: nil-client guard, presence, 64-char
check, hex-decode check, then LookupInvoice. -/
def HandleLookupInvoice (client : Option LightningClient) (args : Args) : QueryOutcome :=
  match client with
  | none => (ToolResult.error notConnectedMsg, [])
  | some c =>
      match getStringArg args "payment_hash" with
      | none => (ToolResult.error "payment_hash is required", [])
      | some paymentHash =>
          if paymentHash.data.length ≠ 64 then
            (ToolResult.error "payment_hash must be a 64-character hex string", [])
          else if ¬ paymentHash.data.all isHexDigitChar then
            (ToolResult.error "invalid payment_hash format", [])
          else
            match c.call (RpcCall.lookupInvoice paymentHash) with
            | Except.error e =>
                (ToolResult.error ("Failed to lookup invoice: " ++ e),
                 [RpcCall.lookupInvoice paymentHash])
            | Except.ok data => (ToolResult.ok data, [RpcCall.lookupInvoice paymentHash])

/-- ChannelService.HandleListChannels. -/
def HandleListChannels (client : Option LightningClient) (args : Args) : QueryOutcome :=
  match client with
  | none => (ToolResult.error notConnectedMsg, [])
  | some c =>
      match c.call (RpcCall.listChannels
          { activeOnly := getBoolArg args "active_only",
            inactiveOnly := getBoolArg args "inactive_only",
            publicOnly := getBoolArg args "public_only",
            privateOnly := getBoolArg args "private_only" }) with
      | Except.error e =>
          (ToolResult.error ("Failed to list channels: " ++ e),
           [RpcCall.listChannels
              { activeOnly := getBoolArg args "active_only",
                inactiveOnly := getBoolArg args "inactive_only",
                publicOnly := getBoolArg args "public_only",
                privateOnly := getBoolArg args "private_only" }])
      | Except.ok data =>
          (ToolResult.ok data,
           [RpcCall.listChannels
              { activeOnly := getBoolArg args "active_only",
                inactiveOnly := getBoolArg args "inactive_only",
                publicOnly := getBoolArg args "public_only",
                privateOnly := getBoolArg args "private_only" }])

/-- ChannelService.HandlePendingChannels. -/
def HandlePendingChannels (client : Option LightningClient) (args : Args) : QueryOutcome :=
  match client with
  | none => (ToolResult.error notConnectedMsg, [])
  | some c =>
      match c.call RpcCall.pendingChannels with
      | Except.error e =>
          (ToolResult.error ("Failed to get pending channels: " ++ e), [RpcCall.pendingChannels])
      | Except.ok data => (ToolResult.ok data, [RpcCall.pendingChannels])

/-- PaymentService.HandleListPayments: a zero or absent max_payments is
replaced by the default 100 before the request is built. -/
def HandleListPayments (client : Option LightningClient) (args : Args) : QueryOutcome :=
  match client with
  | none => (ToolResult.error notConnectedMsg, [])
  | some c =>
      match c.call (RpcCall.listPayments
          { includeIncomplete := getBoolArg args "include_incomplete",
            indexOffset := getFloatArg args "index_offset",
            maxPayments :=
              if getFloatArg args "max_payments" = 0 then 100
              else getFloatArg args "max_payments",
            reversed := getBoolArg args "reversed" }) with
      | Except.error e =>
          (ToolResult.error ("Failed to list payments: " ++ e),
           [RpcCall.listPayments
              { includeIncomplete := getBoolArg args "include_incomplete",
                indexOffset := getFloatArg args "index_offset",
                maxPayments :=
                  if getFloatArg args "max_payments" = 0 then 100
                  else getFloatArg args "max_payments",
                reversed := getBoolArg args "reversed" }])
      | Except.ok data =>
          (ToolResult.ok data,
           [RpcCall.listPayments
              { includeIncomplete := getBoolArg args "include_incomplete",
                indexOffset := getFloatArg args "index_offset",
                maxPayments :=
                  if getFloatArg args "max_payments" = 0 then 100
                  else getFloatArg args "max_payments",
                reversed := getBoolArg args "reversed" }])

/-- PaymentService.HandleTrackPayment: looks the payment up in history via
ListPayments with IncludeIncomplete=true and all other fields at their zero
values; the in-memory search over the response is part of the abstracted
response processing. -/
def HandleTrackPayment (client : Option LightningClient) (args : Args) : QueryOutcome :=
  match client with
  | none => (ToolResult.error notConnectedMsg, [])
  | some c =>
      match getStringArg args "payment_hash" with
      | none => (ToolResult.error "payment_hash is required", [])
      | some paymentHash =>
          if paymentHash.data.length ≠ 64 then
            (ToolResult.error "payment_hash must be a 64-character hex string", [])
          else
            match c.call (RpcCall.listPayments
                { includeIncomplete := true, indexOffset := 0,
                  maxPayments := 0, reversed := false }) with
            | Except.error e =>
                (ToolResult.error ("Failed to fetch payment: " ++ e),
                 [RpcCall.listPayments
                    { includeIncomplete := true, indexOffset := 0,
                      maxPayments := 0, reversed := false }])
            | Except.ok data =>
                (ToolResult.ok data,
                 [RpcCall.listPayments
                    { includeIncomplete := true, indexOffset := 0,
                      maxPayments := 0, reversed := false }])

/-- OnChainService.HandleListUnspent: a zero max_confs becomes 9999999. -/
def HandleListUnspent (client : Option LightningClient) (args : Args) : QueryOutcome :=
  match client with
  | none => (ToolResult.error notConnectedMsg, [])
  | some c =>
      match c.call (RpcCall.listUnspent
          { minConfs := getFloatArg args "min_confs",
            maxConfs :=
              if getFloatArg args "max_confs" = 0 then 9999999
              else getFloatArg args "max_confs",
            account := getStringArgD args "account" }) with
      | Except.error e =>
          (ToolResult.error ("Failed to list unspent: " ++ e),
           [RpcCall.listUnspent
              { minConfs := getFloatArg args "min_confs",
                maxConfs :=
                  if getFloatArg args "max_confs" = 0 then 9999999
                  else getFloatArg args "max_confs",
                account := getStringArgD args "account" }])
      | Except.ok data =>
          (ToolResult.ok data,
           [RpcCall.listUnspent
              { minConfs := getFloatArg args "min_confs",
                maxConfs :=
                  if getFloatArg args "max_confs" = 0 then 9999999
                  else getFloatArg args "max_confs",
                account := getStringArgD args "account" }])

/-- OnChainService.HandleGetTransactions: a zero end_height becomes -1. -/
def HandleGetTransactions (client : Option LightningClient) (args : Args) : QueryOutcome :=
  match client with
  | none => (ToolResult.error notConnectedMsg, [])
  | some c =>
      match c.call (RpcCall.getTransactions
          { startHeight := getFloatArg args "start_height",
            endHeight :=
              if getFloatArg args "end_height" = 0 then -1
              else getFloatArg args "end_height",
            account := getStringArgD args "account" }) with
      | Except.error e =>
          (ToolResult.error ("Failed to get transactions: " ++ e),
           [RpcCall.getTransactions
              { startHeight := getFloatArg args "start_height",
                endHeight :=
                  if getFloatArg args "end_height" = 0 then -1
                  else getFloatArg args "end_height",
                account := getStringArgD args "account" }])
      | Except.ok data =>
          (ToolResult.ok data,
           [RpcCall.getTransactions
              { startHeight := getFloatArg args "start_height",
                endHeight :=
                  if getFloatArg args "end_height" = 0 then -1
                  else getFloatArg args "end_height",
                account := getStringArgD args "account" }])

/-- The loop body of HandleEstimateFee over the fixed target list: skip
targets other than a positive requested one, skip failed estimates, and stop
after the first collected estimate when a target was requested. -/
def estimateFeeLoop (c : LightningClient) (targetConf : Int) :
    List Int → List (Int × String) × List RpcCall
  | [] => ([], [])
  | target :: rest =>
      if targetConf > 0 && target ≠ targetConf then estimateFeeLoop c targetConf rest
      else
        match c.call (RpcCall.estimateFee target) with
        | Except.error _ =>
            ((estimateFeeLoop c targetConf rest).1,
             RpcCall.estimateFee target :: (estimateFeeLoop c targetConf rest).2)
        | Except.ok d =>
            if targetConf > 0 then ([(target, d)], [RpcCall.estimateFee target])
            else
              ((target, d) :: (estimateFeeLoop c targetConf rest).1,
               RpcCall.estimateFee target :: (estimateFeeLoop c targetConf rest).2)

/-- OnChainService.HandleEstimateFee: a zero target_conf becomes 6; estimates
are collected over the fixed targets [1,3,6,10,20,50,100]. -/
def HandleEstimateFee (client : Option LightningClient) (args : Args) : QueryOutcome :=
  match client with
  | none => (ToolResult.error notConnectedMsg, [])
  | some c =>
      match estimateFeeLoop c
          (if getFloatArg args "target_conf" = 0 then 6 else getFloatArg args "target_conf")
          [1, 3, 6, 10, 20, 50, 100] with
      | (estimates, rpcs) =>
          if estimates.isEmpty then (ToolResult.error "Failed to get fee estimates", rpcs)
          else (ToolResult.ok (String.join (estimates.map (fun p => p.2))), rpcs)

/-- PeerService.HandleListPeers. -/
def HandleListPeers (client : Option LightningClient) (args : Args) : QueryOutcome :=
  match client with
  | none => (ToolResult.error notConnectedMsg, [])
  | some c =>
      match c.call RpcCall.listPeers with
      | Except.error e =>
          (ToolResult.error ("Failed to list peers: " ++ e), [RpcCall.listPeers])
      | Except.ok data => (ToolResult.ok data, [RpcCall.listPeers])

/-- PeerService.HandleDescribeGraph. -/
def HandleDescribeGraph (client : Option LightningClient) (args : Args) : QueryOutcome :=
  match client with
  | none => (ToolResult.error notConnectedMsg, [])
  | some c =>
      match c.call (RpcCall.describeGraph (getBoolArg args "include_unannounced")) with
      | Except.error e =>
          (ToolResult.error ("Failed to describe graph: " ++ e),
           [RpcCall.describeGraph (getBoolArg args "include_unannounced")])
      | Except.ok data =>
          (ToolResult.ok data, [RpcCall.describeGraph (getBoolArg args "include_unannounced")])

/-- PeerService.HandleGetNodeInfo. -/
def HandleGetNodeInfo (client : Option LightningClient) (args : Args) : QueryOutcome :=
  match client with
  | none => (ToolResult.error notConnectedMsg, [])
  | some c =>
      match getStringArg args "pub_key" with
      | none => (ToolResult.error "pub_key is required", [])
      | some pubKey =>
          match c.call (RpcCall.getNodeInfo pubKey (getBoolArg args "include_channels")) with
          | Except.error e =>
              (ToolResult.error ("Failed to get node info: " ++ e),
               [RpcCall.getNodeInfo pubKey (getBoolArg args "include_channels")])
          | Except.ok data =>
              (ToolResult.ok data,
               [RpcCall.getNodeInfo pubKey (getBoolArg args "include_channels")])

/-- A concrete node-identity response used in concrete evaluations. -/
def infoA : NodeInfo :=
  ⟨"02abcdef", "carol", 3, 5, "0.19.2-beta"⟩

/-- A valid connect request: a 10-word phrase and a non-empty password. -/
def argsValid : Args :=
  [("pairingPhrase", GoVal.str "one two three four five six seven eight nine ten"),
   ("password", GoVal.str "secret")]

/-- A connect request whose 10-word phrase has one doubled space. -/
def argsDoubleSpace : Args :=
  [("pairingPhrase", GoVal.str "one  two three four five six seven eight nine ten"),
   ("password", GoVal.str "secret")]

/-- A connect request with an explicitly empty password and a custom,
non-loopback relay address. -/
def argsEmptyPassword : Args :=
  [("pairingPhrase", GoVal.str "one two three four five six seven eight nine ten"),
   ("password", GoVal.str ""),
   ("mailbox", GoVal.str "relay.example.com:443")]

/-- An environment in which the whole negotiation and liveness check succeed,
with both callbacks fired before the grace wait ends. -/
def envSuccess : ConnectEnv :=
  ⟨true, none, true, none, some 100, some 150, Except.ok 2, Except.ok infoA,
   "context canceled", "", "", ""⟩

/-- An environment in which the mailbox session constructor fails. -/
def envMailboxFail : ConnectEnv :=
  ⟨true, some "dial tcp: connection refused", true, none, none, none,
   Except.error "unused", Except.error "unused", "context canceled", "", "", ""⟩

/-- An environment in which the tunnel succeeds but the liveness GetInfo RPC
fails. -/
def envGetInfoFail : ConnectEnv :=
  ⟨true, none, true, none, some 100, some 150, Except.ok 7,
   Except.error "rpc error: DeadlineExceeded", "context canceled", "", "", ""⟩

/-- An environment whose governing context is cancelled 1000 ms in, during
the grace wait. -/
def envCancelledGrace : ConnectEnv :=
  ⟨true, none, true, some 1000, none, none, Except.error "unused",
   Except.error "unused", "context deadline exceeded", "", "", ""⟩

/-- An environment whose governing context is cancelled 4000 ms in, during
the poll loop, with the auth callback never firing. -/
def envCancelledPoll : ConnectEnv :=
  ⟨true, none, true, some 4000, some 3100, none, Except.error "unused",
   Except.error "unused", "context deadline exceeded", "", "", ""⟩

/-- A client whose every RPC succeeds with an opaque payload. -/
def stubClient : LightningClient :=
  ⟨fun _ => Except.ok "resp"⟩

/-- A query-argument map that explicitly passes 0 for the max-results
arguments and 5 for the index offset. -/
def argsPagZero : Args :=
  [("index_offset", GoVal.num 5), ("max_payments", GoVal.num 0),
   ("num_max_invoices", GoVal.num 0)]

theorem pollLoopAux_none_spec (remoteKeyAt authAt : Option Nat) :
    ∀ fuel t, 5000 ≤ t + 200 * fuel → t % 200 = 0 → t ≤ 5000 →
      ∃ s e, pollLoopAux none remoteKeyAt authAt fuel t = PollRes.finished s e ∧ s ≤ 25 ∧
        (e = true ↔ ∃ k, t + 200 * k < 5000 ∧
          bothFired authAt remoteKeyAt (3000 + t + 200 * k) = true) := by
  intro fuel
  induction fuel with
  | zero =>
      intro t h1 h2 h3
      refine ⟨t / 200, false, rfl, by omega, ?_⟩
      constructor
      · intro h; cases h
      · rintro ⟨k, hk, -⟩
        omega
  | succ fuel ih =>
      intro t h1 h2 h3
      by_cases ht : t < 5000
      · by_cases hb : bothFired authAt remoteKeyAt (3000 + t) = true
        · refine ⟨t / 200, true, ?_, by omega, ?_⟩
          · simp [pollLoopAux, ht, firedAt, hb]
          · constructor
            · intro _
              exact ⟨0, by omega, by
                have : 3000 + t + 200 * 0 = 3000 + t := by ring
                rw [this]; exact hb⟩
            · intro _; rfl
        · obtain ⟨s, e, heq, hs, hiff⟩ := ih (t + 200) (by omega) (by omega) (by omega)
          refine ⟨s, e, ?_, hs, ?_⟩
          · simp [pollLoopAux, ht, firedAt, hb]
            exact heq
          · rw [hiff]
            constructor
            · rintro ⟨k, hk, hkb⟩
              refine ⟨k + 1, by omega, ?_⟩
              have : 3000 + t + 200 * (k + 1) = 3000 + (t + 200) + 200 * k := by ring
              rw [this]; exact hkb
            · rintro ⟨k, hk, hkb⟩
              match k with
              | 0 =>
                  have : 3000 + t + 200 * 0 = 3000 + t := by ring
                  rw [this] at hkb
                  exact absurd hkb (by simp [hb])
              | k + 1 =>
                  refine ⟨k, by omega, ?_⟩
                  have : 3000 + t + 200 * (k + 1) = 3000 + (t + 200) + 200 * k := by ring
                  rw [this] at hkb; exact hkb
      · refine ⟨t / 200, false, ?_, by omega, ?_⟩
        · simp [pollLoopAux, ht]
        · constructor
          · intro h; cases h
          · rintro ⟨k, hk, -⟩
            omega

theorem pollLoop_none_spec (remoteKeyAt authAt : Option Nat) :
    ∃ s e, pollLoop none remoteKeyAt authAt = PollRes.finished s e ∧ s ≤ 25 ∧
      (e = true ↔ ∃ k, 200 * k < 5000 ∧
        bothFired authAt remoteKeyAt (3000 + 200 * k) = true) := by
  obtain ⟨s, e, heq, hs, hiff⟩ :=
    pollLoopAux_none_spec remoteKeyAt authAt 26 0 (by omega) (by omega) (by omega)
  refine ⟨s, e, heq, hs, ?_⟩
  rw [hiff]
  constructor
  · rintro ⟨k, hk, hkb⟩
    exact ⟨k, by omega, by
      have : 3000 + 0 + 200 * k = 3000 + 200 * k := by ring
      rw [this] at hkb; exact hkb⟩
  · rintro ⟨k, hk, hkb⟩
    exact ⟨k, by omega, by
      have : 3000 + 0 + 200 * k = 3000 + 200 * k := by ring
      rw [this]; exact hkb⟩

theorem pollLoopAux_cancel_spec (cv : Nat) (remoteKeyAt : Option Nat) :
    ∀ fuel t, 5000 ≤ t + 200 * fuel → t % 200 = 0 → t ≤ 4800 → cv ≤ 7800 →
      ∃ u, pollLoopAux (some cv) remoteKeyAt none fuel t = PollRes.cancelled u := by
  intro fuel
  induction fuel with
  | zero =>
      intro t h1 h2 h3 h4
      omega
  | succ fuel ih =>
      intro t h1 h2 h3 h4
      have ht : t < 5000 := by omega
      by_cases hcv : cv ≤ 3000 + t
      · refine ⟨t, ?_⟩
        simp [pollLoopAux, ht, firedAt, hcv]
      · obtain ⟨u, hu⟩ := ih (t + 200) (by omega) (by omega) (by omega) h4
        refine ⟨u, ?_⟩
        simp [pollLoopAux, ht, firedAt, hcv, bothFired]
        exact hu

theorem pollLoop_cancel_spec (cv : Nat) (remoteKeyAt : Option Nat) (h : cv ≤ 7800) :
    ∃ u, pollLoop (some cv) remoteKeyAt none = PollRes.cancelled u := by
  exact pollLoopAux_cancel_spec cv remoteKeyAt 26 0 (by omega) (by omega) (by omega) h

theorem connectToLNC_getInfoFail (env : ConnectEnv) (pp pw mb : String) (dm ins : Bool)
    (n : Nat) (m : String)
    (h1 : env.keygenOk = true) (h2 : env.mailboxErr = none)
    (h3 : env.connectorAvailable = true) (h4 : env.cancelAt = none)
    (h5 : env.connectorResult = Except.ok n) (h6 : env.getInfoResult = Except.error m) :
    ∃ tr, connectToLNC env pp pw mb dm ins =
        (Except.error (ConnErr.getInfoFailed ("connected but failed to get node info: " ++ m)),
         tr) ∧
      n ∈ closedIn tr.events := by
  obtain ⟨s, e, hp, -, -⟩ := pollLoop_none_spec env.remoteKeyAt env.authAt
  refine ⟨ConnectTrace.mk (tlsEvents dm ins mb ++
      [Ev.mailboxOpen, Ev.connectorCall, Ev.getInfoCall, Ev.closeConn n])
      (some (PollRes.finished s e)), ?_, ?_⟩
  · rw [connectToLNC, h1, h2, h4, h3, h5, h6]
    simp only [if_true, graceCancelled, Bool.false_eq_true, if_false, hp]
  · simp only [closedIn, List.filterMap_append, tlsEvents]
    split <;> simp [List.filterMap]

theorem connectToLNC_success (env : ConnectEnv) (pp pw mb : String) (dm ins : Bool)
    (n : Nat) (info : NodeInfo)
    (h1 : env.keygenOk = true) (h2 : env.mailboxErr = none)
    (h3 : env.connectorAvailable = true) (h4 : env.cancelAt = none)
    (h5 : env.connectorResult = Except.ok n) (h6 : env.getInfoResult = Except.ok info) :
    ∃ tr, connectToLNC env pp pw mb dm ins = (Except.ok (n, info), tr) ∧
      closedIn tr.events = [] := by
  obtain ⟨s, e, hp, -, -⟩ := pollLoop_none_spec env.remoteKeyAt env.authAt
  refine ⟨ConnectTrace.mk (tlsEvents dm ins mb ++
      [Ev.mailboxOpen, Ev.connectorCall, Ev.getInfoCall])
      (some (PollRes.finished s e)), ?_, ?_⟩
  · rw [connectToLNC, h1, h2, h4, h3, h5, h6]
    simp only [if_true, graceCancelled, Bool.false_eq_true, if_false, hp]
  · simp only [closedIn, List.filterMap_append, tlsEvents]
    split <;> simp [List.filterMap]

/-- Claim C6: for every query-service operation (node, invoices, payments,
channels, peers, on-chain), if the stored Lightning client reference is
absent, the operation returns the uniform "not connected" error result and
issues no RPC. -/
theorem query_services_nil_client_uniform_error (args : Args) :
    HandleGetInfo none args = (ToolResult.error notConnectedMsg, []) ∧
    HandleGetBalance none args = (ToolResult.error notConnectedMsg, []) ∧
    HandleDecodeInvoice none args = (ToolResult.error notConnectedMsg, []) ∧
    HandleListInvoices none args = (ToolResult.error notConnectedMsg, []) ∧
    HandleLookupInvoice none args = (ToolResult.error notConnectedMsg, []) ∧
    HandleListChannels none args = (ToolResult.error notConnectedMsg, []) ∧
    HandlePendingChannels none args = (ToolResult.error notConnectedMsg, []) ∧
    HandleListPayments none args = (ToolResult.error notConnectedMsg, []) ∧
    HandleTrackPayment none args = (ToolResult.error notConnectedMsg, []) ∧
    HandleListUnspent none args = (ToolResult.error notConnectedMsg, []) ∧
    HandleGetTransactions none args = (ToolResult.error notConnectedMsg, []) ∧
    HandleEstimateFee none args = (ToolResult.error notConnectedMsg, []) ∧
    HandleListPeers none args = (ToolResult.error notConnectedMsg, []) ∧
    HandleDescribeGraph none args = (ToolResult.error notConnectedMsg, []) ∧
    HandleGetNodeInfo none args = (ToolResult.error notConnectedMsg, []) :=
  ⟨rfl, rfl, rfl, rfl, rfl, rfl, rfl, rfl, rfl, rfl, rfl, rfl, rfl, rfl, rfl⟩

/-- Claim C10: the disconnect operation always returns the success result and
leaves the stored connection reference nil; a stored handle is closed (and
the reference cleared) even when Close returns an error, and with no stored
handle the operation succeeds without closing anything. -/
theorem disconnect_always_succeeds_and_clears (st : Option Nat) (closeErr : Option String) :
    (HandleDisconnect st closeErr).1 = ToolResult.ok disconnectText ∧
    (HandleDisconnect st closeErr).2.1 = none ∧
    (HandleDisconnect st closeErr).2.2 =
      (match st with | some conn => [conn] | none => []) := by
  cases st <;> exact ⟨rfl, rfl, rfl⟩

/-- Claim C9, counterexample: the pagination arguments are not forwarded
verbatim — an explicit max_payments = 0 (resp. num_max_invoices = 0) is
substituted with the default 100 in the outgoing RPC request. -/
theorem pagination_zero_max_substituted_cex :
    getFloatArg argsPagZero "max_payments" = 0 ∧
    (HandleListPayments (some stubClient) argsPagZero).2 =
      [RpcCall.listPayments ⟨false, 5, 100, false⟩] ∧
    getFloatArg argsPagZero "num_max_invoices" = 0 ∧
    (HandleListInvoices (some stubClient) argsPagZero).2 =
      [RpcCall.listInvoices ⟨false, 5, 100, false⟩] := by
  decide

/-- Claim C9, amended: HandleListPayments and HandleListInvoices forward the
caller's index_offset and boolean flags verbatim into the single outgoing RPC
request, and forward the max-results argument verbatim exactly when it is
non-zero; an absent or zero max-results value is replaced by the default
100. -/
theorem pagination_forwarded_with_default (args : Args) (c : LightningClient) :
    (HandleListPayments (some c) args).2 =
      [RpcCall.listPayments
        { includeIncomplete := getBoolArg args "include_incomplete",
          indexOffset := getFloatArg args "index_offset",
          maxPayments :=
            if getFloatArg args "max_payments" = 0 then 100
            else getFloatArg args "max_payments",
          reversed := getBoolArg args "reversed" }] ∧
    (HandleListInvoices (some c) args).2 =
      [RpcCall.listInvoices
        { pendingOnly := getBoolArg args "pending_only",
          indexOffset := getFloatArg args "index_offset",
          numMaxInvoices :=
            if getFloatArg args "num_max_invoices" = 0 then 100
            else getFloatArg args "num_max_invoices",
          reversed := getBoolArg args "reversed" }] := by
  constructor
  · simp only [HandleListPayments]
    split <;> rfl
  · simp only [HandleListInvoices]
    split <;> rfl

set_option maxRecDepth 8192 in
/-- Claim C1: evaluation of the code at the failing input.  The phrase
"one  two three four five six seven eight nine ten" has 10 whitespace-
separated words under the normalising tokenisation the spec (and the
repository's own TestPairingPhraseValidation) describe, yet the handler's
actual `strings.Split(strings.TrimSpace(p), " ")` counts the empty token
from the doubled space, yields 11, and rejects the request with the
validation error before any relay interaction. -/
theorem pairing_phrase_empty_tokens_not_ignored :
    (goFields "one  two three four five six seven eight nine ten").length = 10 ∧
    (pairingWords "one  two three four five six seven eight nine ten").length = 11 ∧
    (HandleConnect none argsDoubleSpace envMailboxFail).result =
      ToolResult.error "pairingPhrase must contain exactly 10 words" ∧
    (HandleConnect none argsDoubleSpace envMailboxFail).relayTrace = none := by
  decide

set_option maxRecDepth 8192 in
/-- Claim C2, counterexample: a connect that succeeds while the previous
transport handle 1 is stored replaces it with the new handle 2 without
closing anything — the run's event trace records no close at all, refuting
"the previous handle is closed before the new handle replaces it". -/
theorem connect_replaces_without_closing_cex :
    (HandleConnect (some 1) argsValid envSuccess).result =
      ToolResult.ok (connectSuccessText infoA "mailbox.terminal.lightning.today:443") ∧
    (HandleConnect (some 1) argsValid envSuccess).newConn = some 2 ∧
    ((HandleConnect (some 1) argsValid envSuccess).relayTrace.map
      (fun tr => closedIn tr.events)) = some [] := by
  decide

set_option maxRecDepth 8192 in
/-- Claim C8, counterexample: a request whose password argument is the empty
string passes validation — the handler proceeds to the relay (the mailbox
session is attempted) instead of failing validation first. -/
theorem empty_password_not_rejected_cex :
    getStringArg argsEmptyPassword "password" = some "" ∧
    (HandleConnect none argsEmptyPassword envMailboxFail).relayTrace ≠ none ∧
    (HandleConnect none argsEmptyPassword envMailboxFail).result =
      ToolResult.error
        "Failed to connect to Lightning node: failed to create mailbox connection: dial tcp: connection refused" := by
  decide

/-- Claim C2, amended: when a connect operation succeeds while a previous
transport handle is stored, the new handle replaces the stored reference but
the previous handle is NOT closed — the success path of the run closes no
connection at all, so the superseded handle is leaked. -/
theorem connect_success_closes_nothing (st : Option Nat) (args : Args) (env : ConnectEnv)
    (p pw : String) (n : Nat) (info : NodeInfo)
    (hp : getStringArg args "pairingPhrase" = some p)
    (hw : getStringArg args "password" = some pw)
    (hv : (pairingWords p).length = 10)
    (h1 : env.keygenOk = true) (h2 : env.mailboxErr = none)
    (h3 : env.connectorAvailable = true) (h4 : env.cancelAt = none)
    (h5 : env.connectorResult = Except.ok n) (h6 : env.getInfoResult = Except.ok info) :
    (HandleConnect st args env).newConn = some n ∧
    ((HandleConnect st args env).relayTrace.map (fun tr => closedIn tr.events)) = some [] := by
  obtain ⟨tr, heq, hcl⟩ := connectToLNC_success env p pw (resolveMailboxServer args env)
    (resolveDevMode args env) (resolveInsecure args env) n info h1 h2 h3 h4 h5 h6
  simp only [HandleConnect, hp, hw]
  rw [if_neg (by simp [hv]), heq]
  simp [hcl]

/-- Claim C2, witness: the amended statement at a concrete successful connect
over a previously stored handle. -/
theorem connect_success_closes_nothing_witness :
    (HandleConnect (some 1) argsValid envSuccess).newConn = some 2 ∧
    ((HandleConnect (some 1) argsValid envSuccess).relayTrace.map
      (fun tr => closedIn tr.events)) = some [] :=
  connect_success_closes_nothing (some 1) argsValid envSuccess
    "one two three four five six seven eight nine ten" "secret" 2 infoA
    (by decide) (by decide) (by decide) rfl rfl rfl rfl rfl rfl

/-- Claim C3: if the connector function succeeds but the post-connect
liveness GetInfo RPC fails, the fresh transport handle is closed, the overall
connect reports connection failure (not partial success), the stored
connection is unchanged — so from a clean state no handle is stored and a
subsequent disconnect closes nothing and still succeeds. -/
theorem liveness_failure_closes_handle_not_stored (st : Option Nat) (args : Args)
    (env : ConnectEnv) (p pw : String) (n : Nat) (m : String) (closeErr : Option String)
    (hp : getStringArg args "pairingPhrase" = some p)
    (hw : getStringArg args "password" = some pw)
    (hv : (pairingWords p).length = 10)
    (h1 : env.keygenOk = true) (h2 : env.mailboxErr = none)
    (h3 : env.connectorAvailable = true) (h4 : env.cancelAt = none)
    (h5 : env.connectorResult = Except.ok n) (h6 : env.getInfoResult = Except.error m) :
    (HandleConnect st args env).result =
      ToolResult.error ("Failed to connect to Lightning node: " ++
        ("connected but failed to get node info: " ++ m)) ∧
    (HandleConnect st args env).newConn = st ∧
    (∃ tr, (HandleConnect st args env).relayTrace = some tr ∧ n ∈ closedIn tr.events) ∧
    (st = none →
      HandleDisconnect (HandleConnect st args env).newConn closeErr =
        (ToolResult.ok disconnectText, none, [])) := by
  obtain ⟨tr, heq, hmem⟩ := connectToLNC_getInfoFail env p pw (resolveMailboxServer args env)
    (resolveDevMode args env) (resolveInsecure args env) n m h1 h2 h3 h4 h5 h6
  simp only [HandleConnect, hp, hw]
  rw [if_neg (by simp [hv]), heq]
  refine ⟨rfl, rfl, ⟨tr, rfl, hmem⟩, ?_⟩
  intro hst
  rw [hst]
  rfl

/-- Claim C3, witness: the statement at a concrete run whose liveness RPC
fails after a successful tunnel. -/
theorem liveness_failure_closes_handle_not_stored_witness :
    (HandleConnect none argsValid envGetInfoFail).result =
      ToolResult.error ("Failed to connect to Lightning node: " ++
        ("connected but failed to get node info: " ++ "rpc error: DeadlineExceeded")) ∧
    (HandleConnect none argsValid envGetInfoFail).newConn = none ∧
    (∃ tr, (HandleConnect none argsValid envGetInfoFail).relayTrace = some tr ∧
      7 ∈ closedIn tr.events) ∧
    (none = (none : Option Nat) →
      HandleDisconnect (HandleConnect none argsValid envGetInfoFail).newConn none =
        (ToolResult.ok disconnectText, none, [])) :=
  liveness_failure_closes_handle_not_stored none argsValid envGetInfoFail
    "one two three four five six seven eight nine ten" "secret" 7
    "rpc error: DeadlineExceeded" none
    (by decide) (by decide) (by decide) rfl rfl rfl rfl rfl rfl

/-- Claim C4: once the connector function is available, the negotiation polls
the two callback flags at a fixed 200 ms interval for at most 5 s (at most 25
sleeps), exits the loop early exactly when both flags are set at one of the
poll checks, and then invokes the connector function regardless of whether
both callbacks fired. -/
theorem poll_bounded_early_exit_connector_invoked (env : ConnectEnv)
    (pp pw mb : String) (dm ins : Bool)
    (h1 : env.keygenOk = true) (h2 : env.mailboxErr = none)
    (h3 : env.connectorAvailable = true) (h4 : env.cancelAt = none) :
    ∃ s e, (connectToLNC env pp pw mb dm ins).2.poll = some (PollRes.finished s e) ∧
      s ≤ 25 ∧
      (e = true ↔ ∃ k, 200 * k < 5000 ∧
        bothFired env.authAt env.remoteKeyAt (3000 + 200 * k) = true) ∧
      Ev.connectorCall ∈ (connectToLNC env pp pw mb dm ins).2.events := by
  obtain ⟨s, e, hpoll, hs, hiff⟩ := pollLoop_none_spec env.remoteKeyAt env.authAt
  refine ⟨s, e, ?_, hs, hiff, ?_⟩
  · rw [connectToLNC, h1, h2, h4, h3]
    simp only [if_true, graceCancelled, Bool.false_eq_true, if_false, hpoll]
    split <;> (try split) <;> rfl
  · rw [connectToLNC, h1, h2, h4, h3]
    simp only [if_true, graceCancelled, Bool.false_eq_true, if_false, hpoll]
    split <;> (try split) <;> (simp only [tlsEvents] ; split <;> simp)

/-- Claim C4, witness: the statement at a concrete environment in which both
callbacks fire during the grace wait. -/
theorem poll_bounded_early_exit_connector_invoked_witness :
    ∃ s e, (connectToLNC envSuccess "one two three four five six seven eight nine ten"
        "secret" "mailbox.terminal.lightning.today:443" false false).2.poll =
      some (PollRes.finished s e) ∧ s ≤ 25 ∧
      (e = true ↔ ∃ k, 200 * k < 5000 ∧
        bothFired envSuccess.authAt envSuccess.remoteKeyAt (3000 + 200 * k) = true) ∧
      Ev.connectorCall ∈ (connectToLNC envSuccess
        "one two three four five six seven eight nine ten" "secret"
        "mailbox.terminal.lightning.today:443" false false).2.events :=
  poll_bounded_early_exit_connector_invoked envSuccess
    "one two three four five six seven eight nine ten" "secret"
    "mailbox.terminal.lightning.today:443" false false rfl rfl rfl rfl

/-- Claim C5: the process-wide HTTP-transport TLS verification is disabled
(before the relay session is opened) exactly when the relay address starts
with "localhost" or "127.0.0.1" or the devMode or insecure flag is set; for
all other inputs the connect path never touches the transport TLS
configuration. -/
theorem tls_toggle_iff_insecure_condition (env : ConnectEnv) (pp pw mb : String)
    (dm ins : Bool) :
    (insecureCondition dm ins mb = true → env.keygenOk = true →
      ∃ rest, (connectToLNC env pp pw mb dm ins).2.events =
        Ev.tlsDisable :: Ev.mailboxOpen :: rest) ∧
    (insecureCondition dm ins mb = false →
      Ev.tlsDisable ∉ (connectToLNC env pp pw mb dm ins).2.events) := by
  constructor
  · intro hc hk
    rw [connectToLNC, hk]
    simp only [if_true, tlsEvents, hc]
    split <;> (try split) <;> (try split) <;> (try split) <;> (try split) <;>
      (try split) <;> exact ⟨_, rfl⟩
  · intro hc
    rw [connectToLNC]
    split
    · simp only [tlsEvents, hc, Bool.false_eq_true, if_false]
      split <;> (try split) <;> (try split) <;> (try split) <;> (try split) <;>
        (try split) <;> simp
    · simp

/-- Claim C5, witness: a loopback relay address yields the TLS-disable event
before the mailbox open; a plain remote address yields no TLS-disable. -/
theorem tls_toggle_iff_insecure_condition_witness :
    (∃ rest, (connectToLNC envSuccess "p" "w" "127.0.0.1:11110" false false).2.events =
      Ev.tlsDisable :: Ev.mailboxOpen :: rest) ∧
    Ev.tlsDisable ∉
      (connectToLNC envSuccess "p" "w" "relay.example.com:443" false false).2.events :=
  ⟨(tls_toggle_iff_insecure_condition envSuccess "p" "w" "127.0.0.1:11110" false false).1
      (by decide) rfl,
   (tls_toggle_iff_insecure_condition envSuccess "p" "w" "relay.example.com:443"
      false false).2 (by decide)⟩

/-- Claim C7: a negotiation whose governing context is cancelled during the
3-second grace wait, or during the poll loop (here: within the poll window
while the auth callback never fires), fails with the cancellation-flavoured
error wrapping the context error, which is distinct from the relay-reported
(mailbox), connector-reported and RPC-reported (GetInfo) failures. -/
theorem cancellation_reports_distinct_error (env : ConnectEnv) (pp pw mb : String)
    (dm ins : Bool) (cv : Nat)
    (h1 : env.keygenOk = true) (h2 : env.mailboxErr = none)
    (hc : env.cancelAt = some cv)
    (hd : cv < 3000 ∨ (env.connectorAvailable = true ∧ 3000 ≤ cv ∧ cv ≤ 7800 ∧
      env.authAt = none)) :
    (connectToLNC env pp pw mb dm ins).1 =
      Except.error (ConnErr.cancelled ("connection cancelled: " ++ env.ctxErrMsg)) ∧
    (∀ m, (connectToLNC env pp pw mb dm ins).1 ≠
      Except.error (ConnErr.mailboxFailed m)) ∧
    (∀ m, (connectToLNC env pp pw mb dm ins).1 ≠
      Except.error (ConnErr.connectorFailed m)) ∧
    (∀ m, (connectToLNC env pp pw mb dm ins).1 ≠
      Except.error (ConnErr.getInfoFailed m)) := by
  have hmain : (connectToLNC env pp pw mb dm ins).1 =
      Except.error (ConnErr.cancelled ("connection cancelled: " ++ env.ctxErrMsg)) := by
    rcases hd with hlt | ⟨h3, hge, hle, ha⟩
    · rw [connectToLNC, h1, h2, hc]
      simp [graceCancelled, hlt]
    · obtain ⟨u, hu⟩ := pollLoop_cancel_spec cv env.remoteKeyAt hle
      have hng : ¬ (cv < 3000) := by omega
      rw [connectToLNC, h1, h2, hc, h3, ha]
      simp [graceCancelled, hng, hu]
  refine ⟨hmain, ?_, ?_, ?_⟩ <;> intro m <;> rw [hmain] <;> simp

/-- Claim C7, witness: the statement at a concrete environment cancelled
4000 ms in, during the poll loop. -/
theorem cancellation_reports_distinct_error_witness :
    (connectToLNC envCancelledPoll "p" "w" "relay.example.com:443" false false).1 =
      Except.error (ConnErr.cancelled
        ("connection cancelled: " ++ envCancelledPoll.ctxErrMsg)) ∧
    (∀ m, (connectToLNC envCancelledPoll "p" "w" "relay.example.com:443" false false).1 ≠
      Except.error (ConnErr.mailboxFailed m)) ∧
    (∀ m, (connectToLNC envCancelledPoll "p" "w" "relay.example.com:443" false false).1 ≠
      Except.error (ConnErr.connectorFailed m)) ∧
    (∀ m, (connectToLNC envCancelledPoll "p" "w" "relay.example.com:443" false false).1 ≠
      Except.error (ConnErr.getInfoFailed m)) :=
  cancellation_reports_distinct_error envCancelledPoll "p" "w" "relay.example.com:443"
    false false 4000 rfl rfl rfl (Or.inr ⟨rfl, by omega, by omega, rfl⟩)

/-- Claim C8, amended: the connect handler only enforces that the password
argument is present as a string — a missing (or non-string) password fails
validation before any relay interaction, but the empty string passes
validation and negotiation is attempted. -/
theorem password_presence_only_validation (st : Option Nat) (args : Args)
    (env : ConnectEnv) (p : String)
    (hp : getStringArg args "pairingPhrase" = some p) :
    (getStringArg args "password" = none →
      (HandleConnect st args env).result = ToolResult.error "password is required" ∧
      (HandleConnect st args env).relayTrace = none) ∧
    (∀ pw, getStringArg args "password" = some pw → (pairingWords p).length = 10 →
      (HandleConnect st args env).relayTrace ≠ none) := by
  constructor
  · intro hw
    simp [HandleConnect, hp, hw]
  · intro pw hw hv
    simp only [HandleConnect, hp, hw]
    rw [if_neg (by simp [hv])]
    rcases hcc : connectToLNC env p pw (resolveMailboxServer args env)
      (resolveDevMode args env) (resolveInsecure args env) with ⟨res, tr⟩
    cases res with
    | error e => simp
    | ok v =>
        rcases v with ⟨conn, info⟩
        simp

/-- Claim C8, witness: the amended statement at a concrete request whose
password is the empty string — negotiation is still attempted. -/
theorem password_presence_only_validation_witness :
    (HandleConnect none argsEmptyPassword envMailboxFail).relayTrace ≠ none :=
  (password_presence_only_validation none argsEmptyPassword envMailboxFail
    "one two three four five six seven eight nine ten" (by decide)).2 ""
    (by decide) (by decide)
